import Mathlib

/-!
Shallow embedding of the conversation and messaging engine of the
lifeline patient portal (Flask + MongoDB, files app.py and app1.py).

The MongoDB collections become Lean lists held in insertion order:
a `messages` collection document becomes a `Message`, a `conversations`
document a `Conversation`, and the `patients` roster an association list
from participant id to display name.  Mongo query timestamps become `Nat`.
The endpoint handlers `get_conversations`, `get_messages` and
`send_message` (variant app1.py, the one with read tracking) are
translated as pure state transformers; the app.py variant of the summary
title computation is embedded separately as `summaryOf_app0`.
-/

namespace Lifeline

/-- One document of the `messages` collection: `mid` is the insertion-order
surrogate of the Mongo ObjectId. -/
structure Message where
  mid : Nat
  conversation_id : String
  sender_id : String
  message : String
  timestamp : Nat
  read : Bool
deriving DecidableEq

/-- One document of the `conversations` collection. -/
structure Conversation where
  cid : String
  participants : List String
  title : Option String
  created_at : Nat
deriving DecidableEq

/-- The database state: the three collections the messaging engine touches.
`patients` maps a participant id to the stored display name. -/
structure DB where
  conversations : List Conversation
  messages : List Message
  patients : List (String × String)
deriving DecidableEq

/-- An HTTP-style endpoint result: `ok` is a JSON payload, `err` carries the
status code and the error text of the `jsonify({"error": ...}), code` pair. -/
inductive Resp (α : Type) where
  | ok : α → Resp α
  | err : Nat → String → Resp α
deriving DecidableEq

/-- Python truthiness of an optional string as used by
`if not conversation_id or not message`: `None` and `""` are falsy. -/
def falsy : Option String → Bool
  | none => true
  | some s => s = ""

/-- The Mongo filter `{"conversation_id": cid, "sender_id": {"$ne": pid},
"read": False}` shared by the `update_many` of `get_messages` and the
`count_documents` of `get_conversations` in app1.py. -/
def msgMatches (pid cid : String) (m : Message) : Bool :=
  decide (m.conversation_id = cid ∧ m.sender_id ≠ pid ∧ m.read = false)

/-- Effect of the `update_many(..., {"$set": {"read": True}})` of app1.py
`get_messages` on a single stored message. -/
def markReadUpdate (pid cid : String) (m : Message) : Message :=
  if msgMatches pid cid m then { m with read := true } else m

/-- The bulk read-marking step of app1.py `get_messages` (lines 176-184):
flips `read` on every matching message and reports how many documents the
filter matched (`update_many`'s modified count). -/
def markRead (db : DB) (pid cid : String) : DB × Nat :=
  ({ db with messages := db.messages.map (markReadUpdate pid cid) },
   (db.messages.filter (msgMatches pid cid)).length)

/-- Stable insertion of a message into a timestamp-sorted list; the building
block of the model of Mongo `.sort("timestamp", 1)`. -/
def insertByTime (m : Message) : List Message → List Message
  | [] => [m]
  | x :: xs => if m.timestamp ≤ x.timestamp then m :: x :: xs else x :: insertByTime m xs

/-- Model of one concrete outcome of the Mongo cursor `.sort("timestamp", 1)`:
an ascending-timestamp ordering of the collection.  Mongo guarantees no
order among documents with equal sort keys, so this deterministic sort is
only one admissible cursor outcome; `get_messages_any` below captures the
full set of admissible outcomes. -/
def sortByTime : List Message → List Message
  | [] => []
  | x :: xs => insertByTime x (sortByTime xs)

/-- Naive substring test modelling the Python `"nurse" in msg['sender_id']`. -/
def containsSub (needle hay : String) : Bool :=
  hay.toList.tails.any (fun t => needle.toList.isPrefixOf t)

/-- Sender label of app1.py `get_messages`: `"You"` for the caller, else
`"Nurse"` when the sender id contains `"nurse"`, else `"Doctor"`. -/
def senderName (pid : String) (m : Message) : String :=
  if m.sender_id = pid then "You"
  else if containsSub "nurse" m.sender_id then "Nurse" else "Doctor"

/-- One JSON object of the app1.py `get_messages` response array. -/
structure MessageView where
  mid : Nat
  sender : String
  message : String
  timestamp : Nat
  is_own : Bool
deriving DecidableEq

/-- The JSON object app1.py `get_messages` builds for one stored message. -/
def toView (pid : String) (m : Message) : MessageView :=
  { mid := m.mid, sender := senderName pid m, message := m.message,
    timestamp := m.timestamp, is_own := decide (m.sender_id = pid) }

/-- Handler of `GET /api/conversations/<conversation_id>/messages`
(app1.py lines 171-206): requires a session, marks the caller's unread
messages of the conversation as read, then returns the conversation's
messages sorted ascending by timestamp, rendered through `toView`. -/
def get_messages (db : DB) (session : Option String) (conversation_id : String) :
    DB × Resp (List MessageView) :=
  match session with
  | none => (db, .err 401 "Not authenticated")
  | some pid =>
      let db1 := (markRead db pid conversation_id).1
      let msgs := sortByTime
        (db1.messages.filter (fun m => decide (m.conversation_id = conversation_id)))
      (db1, .ok (msgs.map (toView pid)))

/-- Handler of `POST /api/messages` (app1.py lines 208-231): requires a
session; returns 400 when `conversation_id` or `message` is missing or
empty; otherwise appends a new message with `read := false` — there is no
conversation-existence, participant or length check in the source. -/
def send_message (db : DB) (session : Option String)
    (conversation_id message : Option String) (now : Nat) : DB × Resp String :=
  match session with
  | none => (db, .err 401 "Not authenticated")
  | some pid =>
      if falsy conversation_id || falsy message then
        (db, .err 400 "Missing required fields")
      else
        ({ db with messages := db.messages ++
            [{ mid := db.messages.length, conversation_id := conversation_id.getD "",
               sender_id := pid, message := message.getD "",
               timestamp := now, read := false }] },
         .ok "Message sent")

/-- The `count_documents` unread-count query of app1.py `get_conversations`
(lines 154-159). -/
def unreadCount (db : DB) (cid viewer : String) : Nat :=
  (db.messages.filter (msgMatches viewer cid)).length

/-- The `find_one(..., sort=[("timestamp", -1)])` last-message lookup:
the conversation's message of maximal timestamp, latest inserted on ties. -/
def lastMessage (db : DB) (cid : String) : Option Message :=
  (sortByTime (db.messages.filter (fun m => decide (m.conversation_id = cid)))).getLast?

/-- One JSON object of the app1.py `GET /api/conversations` response. -/
structure ConvSummary where
  sid : String
  title : String
  last_message : String
  timestamp : Nat
  unread_count : Nat
deriving DecidableEq

/-- The summary app1.py `get_conversations` builds for one conversation:
title is `conv.get('title', 'Conversation')`; the last message's text and
timestamp, with the `"No messages yet"` / `created_at` fallbacks; and the
unread count for the caller. -/
def summaryOf (db : DB) (viewer : String) (conv : Conversation) : ConvSummary :=
  match lastMessage db conv.cid with
  | some m => { sid := conv.cid, title := conv.title.getD "Conversation",
                last_message := m.message, timestamp := m.timestamp,
                unread_count := unreadCount db conv.cid viewer }
  | none => { sid := conv.cid, title := conv.title.getD "Conversation",
              last_message := "No messages yet", timestamp := conv.created_at,
              unread_count := unreadCount db conv.cid viewer }

/-- Handler of `GET /api/conversations` (app1.py lines 137-169): requires a
session and summarizes every conversation whose participant array contains
the caller (the Mongo `{"participants": pid}` containment query). -/
def get_conversations (db : DB) (session : Option String) : Resp (List ConvSummary) :=
  match session with
  | none => .err 401 "Not authenticated"
  | some pid =>
      .ok ((db.conversations.filter (fun c => decide (pid ∈ c.participants))).map
        (summaryOf db pid))

/-- Title computation of the app.py variant of `get_conversations`
(lines 87-97): the comma-joined stored names of the non-viewer
participants that resolve in the `patients` collection; a stored
conversation title is never consulted. -/
def titleJoin (db : DB) (viewer : String) (conv : Conversation) : String :=
  String.intercalate ", "
    ((conv.participants.filter (fun p => decide (p ≠ viewer))).filterMap
      (fun p => db.patients.lookup p))

/-- One JSON object of the app.py variant of `GET /api/conversations`
(which has no unread count). -/
structure ConvSummary0 where
  sid : String
  title : String
  last_message : String
  timestamp : Nat
deriving DecidableEq

/-- The summary the app.py variant of `get_conversations` builds for one
conversation (lines 80-100). -/
def summaryOf_app0 (db : DB) (viewer : String) (conv : Conversation) : ConvSummary0 :=
  match lastMessage db conv.cid with
  | some m => { sid := conv.cid, title := titleJoin db viewer conv,
                last_message := m.message, timestamp := m.timestamp }
  | none => { sid := conv.cid, title := titleJoin db viewer conv,
              last_message := "No messages yet", timestamp := conv.created_at }

/-- Rendering of the spec sentence for the fallback title: the comma-joined
display names of all participants except the viewer, in participant-set
order, used to compare the spec's title contract with the code's. -/
def titleFor_spec (db : DB) (viewer : String) (conv : Conversation) : String :=
  match conv.title with
  | some t => t
  | none => String.intercalate ", "
      ((conv.participants.filter (fun p => decide (p ≠ viewer))).map
        (fun p => (db.patients.lookup p).getD p))

/-! ### Helper lemmas about the stable timestamp sort -/

theorem mem_insertByTime (y m : Message) :
    ∀ l : List Message, y ∈ insertByTime m l → y = m ∨ y ∈ l := by
  intro l
  induction l with
  | nil =>
      intro h
      simp only [insertByTime, List.mem_singleton] at h
      exact Or.inl h
  | cons x xs ih =>
      intro h
      simp only [insertByTime] at h
      by_cases hc : m.timestamp ≤ x.timestamp
      · rw [if_pos hc] at h
        rcases List.mem_cons.mp h with h | h
        · exact Or.inl h
        · exact Or.inr h
      · rw [if_neg hc] at h
        rcases List.mem_cons.mp h with h | h
        · exact Or.inr (List.mem_cons.mpr (Or.inl h))
        · rcases ih h with h | h
          · exact Or.inl h
          · exact Or.inr (List.mem_cons.mpr (Or.inr h))

theorem pairwise_insertByTime (m : Message) :
    ∀ l : List Message, l.Pairwise (fun a b => a.timestamp ≤ b.timestamp) →
      (insertByTime m l).Pairwise (fun a b => a.timestamp ≤ b.timestamp) := by
  intro l
  induction l with
  | nil =>
      intro _
      simp [insertByTime]
  | cons x xs ih =>
      intro h
      rcases List.pairwise_cons.mp h with ⟨hx, hxs⟩
      simp only [insertByTime]
      by_cases hc : m.timestamp ≤ x.timestamp
      · rw [if_pos hc]
        refine List.pairwise_cons.mpr ⟨?_, h⟩
        intro y hy
        rcases List.mem_cons.mp hy with rfl | hy
        · exact hc
        · exact Nat.le_trans hc (hx y hy)
      · rw [if_neg hc]
        refine List.pairwise_cons.mpr ⟨?_, ih hxs⟩
        intro y hy
        rcases mem_insertByTime y m _ hy with rfl | hy
        · exact Nat.le_of_lt (Nat.lt_of_not_le hc)
        · exact hx y hy

theorem sortByTime_pairwise (l : List Message) :
    (sortByTime l).Pairwise (fun a b => a.timestamp ≤ b.timestamp) := by
  induction l with
  | nil => simp [sortByTime]
  | cons x xs ih => exact pairwise_insertByTime x (sortByTime xs) ih

theorem insertByTime_perm (m : Message) :
    ∀ l : List Message, (insertByTime m l).Perm (m :: l) := by
  intro l
  induction l with
  | nil => simp [insertByTime]
  | cons x xs ih =>
      simp only [insertByTime]
      by_cases hc : m.timestamp ≤ x.timestamp
      · rw [if_pos hc]
      · rw [if_neg hc]
        exact (ih.cons x).trans (List.Perm.swap m x xs)

theorem sortByTime_perm (l : List Message) : (sortByTime l).Perm l := by
  induction l with
  | nil => simp [sortByTime]
  | cons x xs ih =>
      simp only [sortByTime]
      exact (insertByTime_perm x (sortByTime xs)).trans (ih.cons x)

/-! ### Helper lemmas about the bulk read-marking -/

theorem msgMatches_markReadUpdate (pid cid : String) (m : Message) :
    msgMatches pid cid (markReadUpdate pid cid m) = false := by
  unfold markReadUpdate
  by_cases h : msgMatches pid cid m = true
  · rw [if_pos h]
    simp [msgMatches]
  · rw [if_neg h]
    simpa using h

theorem filter_matches_markRead (db : DB) (pid cid : String) :
    (markRead db pid cid).1.messages.filter (msgMatches pid cid) = [] := by
  show (db.messages.map (markReadUpdate pid cid)).filter (msgMatches pid cid) = []
  rw [List.filter_map]
  have h : db.messages.filter (msgMatches pid cid ∘ markReadUpdate pid cid) = [] := by
    refine List.filter_eq_nil_iff.mpr ?_
    intro m _
    simp [Function.comp, msgMatches_markReadUpdate]
  rw [h, List.map_nil]

theorem zip_map_self {α : Type} (g : α → α) :
    ∀ (l : List α) (p : α × α), p ∈ l.zip (l.map g) → p.2 = g p.1 := by
  intro l
  induction l with
  | nil =>
      intro p h
      simp at h
  | cons x xs ih =>
      intro p h
      simp only [List.map_cons, List.zip_cons_cons] at h
      rcases List.mem_cons.mp h with rfl | h
      · rfl
      · exact ih p h

theorem markReadUpdate_idem (pid cid : String) (m : Message) :
    markReadUpdate pid cid (markReadUpdate pid cid m) = markReadUpdate pid cid m := by
  have h := msgMatches_markReadUpdate pid cid m
  rw [show markReadUpdate pid cid (markReadUpdate pid cid m)
      = if msgMatches pid cid (markReadUpdate pid cid m) then
          { markReadUpdate pid cid m with read := true }
        else markReadUpdate pid cid m from rfl, h]
  simp

/-! ### Claim theorems -/

/-- C3: opening a conversation (the GET messages endpoint) performs the bulk
read-marking before building the message list, so after `get_messages` the
caller's unread count for that conversation — the very query the summary
endpoint runs — is 0. -/
theorem C3_open_conversation_zeroes_unread (db : DB) (pid cid : String) :
    (get_messages db (some pid) cid).1 = (markRead db pid cid).1 ∧
    unreadCount (get_messages db (some pid) cid).1 cid pid = 0 := by
  refine ⟨rfl, ?_⟩
  show ((markRead db pid cid).1.messages.filter (msgMatches pid cid)).length = 0
  rw [filter_matches_markRead]
  rfl

/-- C6: the bulk read-marking is idempotent — run twice in a row with no
intervening append it changes nothing and reports a count of 0 — and it
only ever turns `read` from `false` to `true`, and only on messages whose
sender is not the viewer. -/
theorem C6_markRead_idempotent (db : DB) (pid cid : String) :
    (markRead (markRead db pid cid).1 pid cid).1 = (markRead db pid cid).1 ∧
    (markRead (markRead db pid cid).1 pid cid).2 = 0 ∧
    ∀ p ∈ db.messages.zip (markRead db pid cid).1.messages,
      p.2 = p.1 ∨
        (p.1.read = false ∧ p.1.sender_id ≠ pid ∧ p.2 = { p.1 with read := true }) := by
  refine ⟨?_, ?_, ?_⟩
  · have h : (db.messages.map (markReadUpdate pid cid)).map (markReadUpdate pid cid)
        = db.messages.map (markReadUpdate pid cid) := by
      rw [List.map_map]
      exact List.map_congr_left (fun m _ => markReadUpdate_idem pid cid m)
    show ({ conversations := db.conversations,
            messages := (db.messages.map (markReadUpdate pid cid)).map (markReadUpdate pid cid),
            patients := db.patients } : DB) = (markRead db pid cid).1
    rw [h]
    rfl
  · show ((markRead db pid cid).1.messages.filter (msgMatches pid cid)).length = 0
    rw [filter_matches_markRead]
    rfl
  · intro p hp
    have h2 : p.2 = markReadUpdate pid cid p.1 := zip_map_self (markReadUpdate pid cid) db.messages p hp
    by_cases hm : msgMatches pid cid p.1 = true
    · right
      have hc := of_decide_eq_true hm
      exact ⟨hc.2.2, hc.2.1, by rw [h2, markReadUpdate, if_pos hm]⟩
    · left
      rw [h2, markReadUpdate, if_neg hm]

/-- Concrete single-message database used to exercise the read-marking
theorems on explicit data. -/
def mW : Message :=
  { mid := 0, conversation_id := "c1", sender_id := "s1", message := "hi",
    timestamp := 1, read := false }

/-- Concrete database containing only `mW`. -/
def dbW : DB :=
  { conversations := [{ cid := "c1", participants := ["p1", "s1"], title := none,
                        created_at := 0 }],
    messages := [mW], patients := [] }

/-- Witness for C6: the hypotheses of the idempotence theorem are satisfiable
on the concrete one-message database. -/
theorem C6_markRead_idempotent_witness :
    (mW, ({ mW with read := true } : Message)).2 = (mW, ({ mW with read := true } : Message)).1 ∨
      ((mW, ({ mW with read := true } : Message)).1.read = false ∧
        (mW, ({ mW with read := true } : Message)).1.sender_id ≠ "p1" ∧
        (mW, ({ mW with read := true } : Message)).2
          = { (mW, ({ mW with read := true } : Message)).1 with read := true }) :=
  (C6_markRead_idempotent dbW "p1" "c1").2.2
    (mW, { mW with read := true }) (by decide)

/-- C10: the bulk read-marking touches no other collection, keeps the
message count, and pointwise either leaves a stored message entirely
unchanged (when it is in another conversation, was sent by the viewer, or
was already read) or changes exactly its `read` flag to `true`, every other
field kept. -/
theorem C10_markRead_frame (db : DB) (pid cid : String) :
    (markRead db pid cid).1.conversations = db.conversations ∧
    (markRead db pid cid).1.patients = db.patients ∧
    (markRead db pid cid).1.messages.length = db.messages.length ∧
    ∀ p ∈ db.messages.zip (markRead db pid cid).1.messages,
      (¬(p.1.conversation_id = cid ∧ p.1.sender_id ≠ pid ∧ p.1.read = false) → p.2 = p.1) ∧
      ((p.1.conversation_id = cid ∧ p.1.sender_id ≠ pid ∧ p.1.read = false) →
        p.2.mid = p.1.mid ∧ p.2.conversation_id = p.1.conversation_id ∧
        p.2.sender_id = p.1.sender_id ∧ p.2.message = p.1.message ∧
        p.2.timestamp = p.1.timestamp ∧ p.2.read = true) := by
  refine ⟨rfl, rfl, ?_, ?_⟩
  · show (db.messages.map (markReadUpdate pid cid)).length = db.messages.length
    exact List.length_map db.messages (markReadUpdate pid cid)
  · intro p hp
    have h2 : p.2 = markReadUpdate pid cid p.1 := zip_map_self (markReadUpdate pid cid) db.messages p hp
    constructor
    · intro hno
      have hm : msgMatches pid cid p.1 = false := by
        simp [msgMatches, hno]
      rw [h2, markReadUpdate, hm]
      simp
    · intro hyes
      have hm : msgMatches pid cid p.1 = true := by
        simp [msgMatches, hyes]
      rw [h2, markReadUpdate, hm]
      simp

/-- Concrete message of another conversation used by the frame witness. -/
def mW10 : Message :=
  { mid := 3, conversation_id := "c2", sender_id := "s2", message := "other",
    timestamp := 5, read := false }

/-- Concrete database containing only `mW10`. -/
def dbW10 : DB :=
  { conversations := [], messages := [mW10], patients := [] }

/-- Witness for C10: on a concrete database, a message of a different
conversation passes through the read-marking untouched. -/
theorem C10_markRead_frame_witness :
    ((mW10, mW10) : Message × Message).2 = ((mW10, mW10) : Message × Message).1 :=
  ((C10_markRead_frame dbW10 "p1" "c1").2.2.2 (mW10, mW10) (by decide)).1 (by decide)

/-- An admissible response of the GET messages endpoint under Mongo's actual
sort contract: `.sort("timestamp", 1)` fixes only the timestamp order, so
any ascending-timestamp permutation of the conversation's messages (after
the read-marking) may be returned, rendered through `toView`. -/
def get_messages_any (db : DB) (pid cid : String) (views : List MessageView) : Prop :=
  ∃ out : List Message,
    out.Perm ((markRead db pid cid).1.messages.filter
      (fun m => decide (m.conversation_id = cid))) ∧
    out.Pairwise (fun a b => a.timestamp ≤ b.timestamp) ∧
    views = out.map (toView pid)

/-- C4 amended: the response of the messages endpoint is some
timestamp-sorted permutation of the conversation's stored messages — the
deterministic embedding is one admissible outcome, and every admissible
outcome is non-decreasing in timestamp and a permutation of the stored
conversation messages; no order among equal timestamps is guaranteed. -/
theorem C4_messages_ordered_any (db : DB) (pid cid : String) :
    (∀ db2 views, get_messages db (some pid) cid = (db2, .ok views) →
      get_messages_any db pid cid views) ∧
    (∀ views, get_messages_any db pid cid views →
      views.Pairwise (fun a b => a.timestamp ≤ b.timestamp) ∧
      views.Perm (((markRead db pid cid).1.messages.filter
        (fun m => decide (m.conversation_id = cid))).map (toView pid))) := by
  constructor
  · intro db2 views h
    simp only [get_messages, Prod.mk.injEq, Resp.ok.injEq] at h
    obtain ⟨hdb, hv⟩ := h
    subst hv
    exact ⟨sortByTime _, sortByTime_perm _, sortByTime_pairwise _, rfl⟩
  · intro views h
    obtain ⟨out, hperm, hsort, hv⟩ := h
    subst hv
    constructor
    · refine List.pairwise_map.mpr ?_
      exact List.Pairwise.imp (fun h => h) hsort
    · exact hperm.map (toView pid)

/-- Concrete two-message database for the ordering witness: the caller's own
older message and a staff message with a later timestamp. -/
def dbW4 : DB :=
  { conversations := [{ cid := "c1", participants := ["p1", "s1"], title := none,
                        created_at := 0 }],
    messages :=
      [{ mid := 0, conversation_id := "c1", sender_id := "s1", message := "a",
         timestamp := 2, read := false },
       { mid := 1, conversation_id := "c1", sender_id := "p1", message := "b",
         timestamp := 1, read := false }],
    patients := [] }

/-- State of `dbW4` after `get_messages` by `p1` marked the staff message read. -/
def dbW4r : DB :=
  { conversations := dbW4.conversations,
    messages :=
      [{ mid := 0, conversation_id := "c1", sender_id := "s1", message := "a",
         timestamp := 2, read := true },
       { mid := 1, conversation_id := "c1", sender_id := "p1", message := "b",
         timestamp := 1, read := false }],
    patients := [] }

/-- Response `get_messages` builds on `dbW4` for caller `p1`. -/
def viewsW4 : List MessageView :=
  [{ mid := 1, sender := "You", message := "b", timestamp := 1, is_own := true },
   { mid := 0, sender := "Doctor", message := "a", timestamp := 2, is_own := false }]

/-- Witness for C4: the deterministic response of `get_messages` on `dbW4`
is one admissible outcome of the relational cursor model. -/
theorem C4_messages_ordered_any_witness :
    get_messages_any dbW4 "p1" "c1" viewsW4 :=
  (C4_messages_ordered_any dbW4 "p1" "c1").1 dbW4r viewsW4 (by decide)

/-- Concrete database for the C4 counterexample: two staff messages of the
same conversation carrying the same timestamp, stored in insertion order
`mid 0` then `mid 1`. -/
def dbC4 : DB :=
  { conversations := [{ cid := "c1", participants := ["p1", "s1"], title := none,
                        created_at := 0 }],
    messages :=
      [{ mid := 0, conversation_id := "c1", sender_id := "s1", message := "first",
         timestamp := 5, read := false },
       { mid := 1, conversation_id := "c1", sender_id := "s1", message := "second",
         timestamp := 5, read := false }],
    patients := [] }

/-- An admissible response on `dbC4` that lists the equal-timestamp messages
in the reverse of their insertion order. -/
def viewsC4 : List MessageView :=
  [{ mid := 1, sender := "Doctor", message := "second", timestamp := 5, is_own := false },
   { mid := 0, sender := "Doctor", message := "first", timestamp := 5, is_own := false }]

/-- Counterexample to C4 as stated: on `dbC4` the two messages share a
timestamp and are stored in order `[0, 1]`, yet `viewsC4`, which returns
them in order `[1, 0]`, is an admissible response of the endpoint — the
sort key fixes no order among equal timestamps, so insertion order among
ties is not guaranteed. -/
theorem C4_counterexample :
    dbC4.messages.map (fun m => m.mid) = [0, 1] ∧
    dbC4.messages.map (fun m => m.timestamp) = [5, 5] ∧
    viewsC4.map (fun v => v.mid) = [1, 0] ∧
    get_messages_any dbC4 "p1" "c1" viewsC4 := by
  refine ⟨rfl, rfl, rfl, ?_⟩
  exact ⟨[{ mid := 1, conversation_id := "c1", sender_id := "s1", message := "second",
            timestamp := 5, read := true },
          { mid := 0, conversation_id := "c1", sender_id := "s1", message := "first",
            timestamp := 5, read := true }],
    by decide, by decide, rfl⟩

/-- C5: appending a message to a conversation raises the viewer's unread
count for that conversation by exactly 1 when the sender is someone else,
and leaves it unchanged when the viewer sends it themselves. -/
theorem C5_append_unread (db : DB) (A viewer cid body : String) (now : Nat)
    (hc : cid ≠ "") (hb : body ≠ "") :
    (A ≠ viewer →
      unreadCount (send_message db (some A) (some cid) (some body) now).1 cid viewer
        = unreadCount db cid viewer + 1) ∧
    (A = viewer →
      unreadCount (send_message db (some A) (some cid) (some body) now).1 cid viewer
        = unreadCount db cid viewer) := by
  have hf : (falsy (some cid) || falsy (some body)) = false := by
    simp [falsy, hc, hb]
  have hsend : (send_message db (some A) (some cid) (some body) now).1
      = { db with messages := db.messages ++
          [{ mid := db.messages.length, conversation_id := cid, sender_id := A,
             message := body, timestamp := now, read := false }] } := by
    simp [send_message, hf]
  rw [hsend]
  constructor
  · intro hAv
    show ((db.messages ++ [_]).filter (msgMatches viewer cid)).length = _
    rw [List.filter_append, List.length_append]
    simp [unreadCount, msgMatches, hAv]
  · intro hAv
    show ((db.messages ++ [_]).filter (msgMatches viewer cid)).length = _
    rw [List.filter_append, List.length_append]
    simp [unreadCount, msgMatches, hAv]

/-- Concrete empty database for the unread-count witness. -/
def dbW5 : DB :=
  { conversations := [], messages := [], patients := [] }

/-- Witness for C5: on the empty database, a message sent by `a` raises
viewer `v`'s unread count of conversation `c` from 0 to 1. -/
theorem C5_append_unread_witness :
    unreadCount (send_message dbW5 (some "a") (some "c") (some "hi") 0).1 "c" "v"
      = unreadCount dbW5 "c" "v" + 1 :=
  (C5_append_unread dbW5 "a" "v" "c" "hi" 0 (by decide) (by decide)).1 (by decide)

/-- C9: every summary returned by the conversations endpoint comes from a
stored conversation whose participant set contains the viewer; a
conversation the viewer is not in never contributes an entry. -/
theorem C9_summaries_only_for_participants (db : DB) (viewer : String)
    (l : List ConvSummary) (h : get_conversations db (some viewer) = .ok l) :
    ∀ s ∈ l, ∃ conv, conv ∈ db.conversations ∧ viewer ∈ conv.participants ∧
      s = summaryOf db viewer conv := by
  simp only [get_conversations, Resp.ok.injEq] at h
  subst h
  intro s hs
  rcases List.mem_map.mp hs with ⟨conv, hconv, rfl⟩
  rcases List.mem_filter.mp hconv with ⟨hmem, hp⟩
  exact ⟨conv, hmem, of_decide_eq_true hp, rfl⟩

/-- Concrete conversation for the C9 witness. -/
def convC9 : Conversation :=
  { cid := "c1", participants := ["p1"], title := some "T", created_at := 3 }

/-- Concrete database for the C9 witness. -/
def dbW9 : DB :=
  { conversations := [convC9], messages := [], patients := [] }

/-- The summary `get_conversations` produces on `dbW9` for `p1`. -/
def sW9 : ConvSummary :=
  { sid := "c1", title := "T", last_message := "No messages yet", timestamp := 3,
    unread_count := 0 }

/-- Witness for C9: the membership theorem applies to the concrete response
on `dbW9`. -/
theorem C9_summaries_only_for_participants_witness :
    ∃ conv, conv ∈ dbW9.conversations ∧ "p1" ∈ conv.participants ∧
      sW9 = summaryOf dbW9 "p1" conv :=
  C9_summaries_only_for_participants dbW9 "p1" [sW9] (by decide) sW9 (by decide)

/-- Concrete database for the C1 counterexample: one conversation `c1`
between `p2` and `p3`; the sender `p1` participates in nothing and the
conversation `c999` does not exist. -/
def dbC1 : DB :=
  { conversations := [{ cid := "c1", participants := ["p2", "p3"], title := none,
                        created_at := 0 }],
    messages := [], patients := [] }

/-- Counterexample to C1: an authenticated append addressed to the
nonexistent conversation `c999`, by a sender who is a participant of no
conversation, does not fail with NotFound or Forbidden — the handler
persists the message and returns success. -/
theorem C1_counterexample :
    (∀ c ∈ dbC1.conversations, c.cid ≠ "c999") ∧
    (send_message dbC1 (some "p1") (some "c999") (some "hello") 0).2
      = .ok "Message sent" ∧
    (send_message dbC1 (some "p1") (some "c999") (some "hello") 0).1.messages.length
      = dbC1.messages.length + 1 := by decide

/-- C1 amended: the only validations `send_message` performs are the session
check (401) and the missing/empty-field check (400); whenever both fields
are non-empty it persists the message and returns success, with no
conversation-existence, participant or maximum-length check. -/
theorem C1_send_message_validation (db : DB) (pid : String)
    (conversation_id message : Option String) (now : Nat) :
    (send_message db none conversation_id message now
      = (db, .err 401 "Not authenticated")) ∧
    ((falsy conversation_id || falsy message) = true →
      send_message db (some pid) conversation_id message now
        = (db, .err 400 "Missing required fields")) ∧
    ((falsy conversation_id || falsy message) = false →
      (send_message db (some pid) conversation_id message now).2 = .ok "Message sent" ∧
      (send_message db (some pid) conversation_id message now).1.messages
        = db.messages ++
          [{ mid := db.messages.length, conversation_id := conversation_id.getD "",
             sender_id := pid, message := message.getD "", timestamp := now,
             read := false }] ∧
      (send_message db (some pid) conversation_id message now).1.conversations
        = db.conversations) := by
  refine ⟨rfl, ?_, ?_⟩
  · intro h
    simp [send_message, h]
  · intro h
    simp [send_message, h]

/-- Witness for C1: the 400 branch of the validation theorem fires on an
empty conversation id. -/
theorem C1_send_message_validation_witness :
    send_message dbC1 (some "p1") (some "") (some "x") 0
      = (dbC1, .err 400 "Missing required fields") :=
  (C1_send_message_validation dbC1 "p1" (some "") (some "x") 0).2.1 (by decide)

/-- Concrete database for the C2 counterexample: `eve` participates in no
conversation but is authenticated. -/
def dbC2 : DB :=
  { conversations := [{ cid := "c1", participants := ["alice", "bob"], title := none,
                        created_at := 0 }],
    messages := [{ mid := 0, conversation_id := "c1", sender_id := "alice",
                   message := "secret", timestamp := 1, read := false }],
    patients := [] }

/-- Counterexample to C2: a viewer outside the participant set of `c1` is
not rejected with Forbidden — `get_messages` returns the conversation's
messages to any authenticated caller. -/
theorem C2_counterexample :
    (∀ c ∈ dbC2.conversations, "eve" ∉ c.participants) ∧
    (get_messages dbC2 (some "eve") "c1").2
      = .ok [{ mid := 0, sender := "Doctor", message := "secret", timestamp := 1,
               is_own := false }] := by decide

/-- C2 amended: the only check `get_messages` performs is authentication —
without a session it fails with 401, and with any session it returns a
message list, with no participant (Forbidden) check at all. -/
theorem C2_get_messages_auth_only (db : DB) (pid cid : String) :
    ((get_messages db none cid).2 = .err 401 "Not authenticated") ∧
    ∃ views, (get_messages db (some pid) cid).2 = .ok views :=
  ⟨rfl, ⟨_, rfl⟩⟩

/-- Concrete empty conversation for the C7 claim. -/
def convC7 : Conversation :=
  { cid := "c1", participants := ["p1", "s1"], title := some "Care Team",
    created_at := 7 }

/-- Concrete database holding only the empty conversation `convC7`. -/
def dbC7 : DB :=
  { conversations := [convC7], messages := [], patients := [] }

/-- Counterexample to C7: for a conversation with zero messages the summary
sentinel the code produces is `"No messages yet"` (capital N), not the
claimed string `"no messages yet"`. -/
theorem C7_counterexample :
    get_conversations dbC7 (some "p1")
      = .ok [{ sid := "c1", title := "Care Team", last_message := "No messages yet",
               timestamp := 7, unread_count := 0 }] ∧
    ("No messages yet" : String) ≠ "no messages yet" := by decide

/-- C7 amended: for every conversation with zero messages, the summary entry
produced by the conversations endpoint has `last_message` equal to the
sentinel `"No messages yet"`, timestamp equal to the conversation's
`created_at`, and an unread count of 0. -/
theorem C7_empty_conversation_summary (db : DB) (viewer : String)
    (conv : Conversation) (hmem : conv ∈ db.conversations)
    (hview : viewer ∈ conv.participants)
    (hempty : db.messages.filter (fun m => decide (m.conversation_id = conv.cid)) = []) :
    ∃ l, get_conversations db (some viewer) = .ok l ∧ summaryOf db viewer conv ∈ l ∧
      (summaryOf db viewer conv).last_message = "No messages yet" ∧
      (summaryOf db viewer conv).timestamp = conv.created_at ∧
      (summaryOf db viewer conv).unread_count = 0 := by
  have hlast : lastMessage db conv.cid = none := by
    simp [lastMessage, hempty, sortByTime]
  have hunread : unreadCount db conv.cid viewer = 0 := by
    have hnil : db.messages.filter (msgMatches viewer conv.cid) = [] := by
      refine List.filter_eq_nil_iff.mpr ?_
      intro m hm
      have h1 := List.filter_eq_nil_iff.mp hempty m hm
      have h2 : m.conversation_id ≠ conv.cid := by simpa using h1
      simp [msgMatches, h2]
    simp [unreadCount, hnil]
  refine ⟨_, rfl, ?_, ?_, ?_, ?_⟩
  · exact List.mem_map_of_mem _ (List.mem_filter.mpr ⟨hmem, by simpa using hview⟩)
  · simp [summaryOf, hlast]
  · simp [summaryOf, hlast]
  · simp [summaryOf, hlast, hunread]

/-- Witness for C7: the amended summary theorem applies to the concrete
empty conversation `convC7`. -/
theorem C7_empty_conversation_summary_witness :
    ∃ l, get_conversations dbC7 (some "p1") = .ok l ∧
      summaryOf dbC7 "p1" convC7 ∈ l ∧
      (summaryOf dbC7 "p1" convC7).last_message = "No messages yet" ∧
      (summaryOf dbC7 "p1" convC7).timestamp = convC7.created_at ∧
      (summaryOf dbC7 "p1" convC7).unread_count = 0 :=
  C7_empty_conversation_summary dbC7 "p1" convC7 (by decide) (by decide) (by decide)

/-- Concrete untitled conversation for the C8 counterexample. -/
def convC8 : Conversation :=
  { cid := "c1", participants := ["p1", "p2"], title := none, created_at := 3 }

/-- Concrete database for the C8 counterexample: `p2` has display name
`Alice` in the roster. -/
def dbC8 : DB :=
  { conversations := [convC8], messages := [], patients := [("p2", "Alice")] }

/-- Counterexample to C8: with no stored title, the summary title the
app1.py handler produces is the constant `"Conversation"`, not the
comma-joined display names of the other participants (which would be
`"Alice"` here). -/
theorem C8_counterexample :
    get_conversations dbC8 (some "p1")
      = .ok [{ sid := "c1", title := "Conversation", last_message := "No messages yet",
               timestamp := 3, unread_count := 0 }] ∧
    titleFor_spec dbC8 "p1" convC8 = "Alice" ∧
    ("Conversation" : String) ≠ "Alice" := by decide

/-- C8 amended: in app1.py the summary title is the stored conversation
title when set and the constant `"Conversation"` otherwise; the app.py
variant instead always uses the comma-joined roster names of the
non-viewer participants and ignores any stored title. -/
theorem C8_title_behavior (db : DB) (viewer : String) (conv : Conversation) :
    (∀ t, conv.title = some t → (summaryOf db viewer conv).title = t) ∧
    (conv.title = none → (summaryOf db viewer conv).title = "Conversation") ∧
    (summaryOf_app0 db viewer conv).title = titleJoin db viewer conv ∧
    (summaryOf_app0 db viewer { conv with title := some "ignored" }).title
      = (summaryOf_app0 db viewer { conv with title := none }).title := by
  have ht : (summaryOf db viewer conv).title = conv.title.getD "Conversation" := by
    unfold summaryOf
    cases lastMessage db conv.cid <;> rfl
  have ht0 : ∀ c : Conversation, (summaryOf_app0 db viewer c).title = titleJoin db viewer c := by
    intro c
    unfold summaryOf_app0
    cases lastMessage db c.cid <;> rfl
  refine ⟨?_, ?_, ht0 conv, ?_⟩
  · intro t h
    rw [ht, h]
    rfl
  · intro h
    rw [ht, h]
    rfl
  · rw [ht0, ht0]
    rfl

/-- Concrete titled conversation for the C8 witness. -/
def convC8t : Conversation :=
  { cid := "c2", participants := ["p1"], title := some "Team", created_at := 0 }

/-- Witness for C8: the stored-title branch of the title theorem fires on a
titled conversation. -/
theorem C8_title_behavior_witness :
    (summaryOf dbC8 "p1" convC8t).title = "Team" :=
  (C8_title_behavior dbC8 "p1" convC8t).1 "Team" rfl

end Lifeline
